import Mathlib

/-!
Shallow embedding of the voice-shopper action and dispatch layer
(src/voice_agent/actions.py, src/voice_agent/agent.py, src/voice_agent/server.py).

HTTP traffic is modelled by an explicit `Backend` oracle mapping each outgoing
request to the response (or network error) the environment produces.  Each
action returns its Python result dictionary together with the trace of requests
it issued.  JSON numbers are modelled as integers (the code performs no numeric
arithmetic beyond the literal `httpx.codes.FOUND * 1000`).
-/

/-- Values appearing in JSON bodies and Python result dictionaries. -/
inductive JsonVal where
  | null
  | bool (b : Bool)
  | num (n : Int)
  | str (s : String)
  | arr (elems : List JsonVal)
  | obj (fields : List (String × JsonVal))

/-- Python dictionaries with string keys, in insertion order. -/
abbrev PyDict := List (String × JsonVal)

/-- Lookup of a key in a dictionary (Python `d[k]` / `d.get(k)`). -/
def PyDict.get (d : PyDict) (k : String) : Option JsonVal :=
  (d.find? fun p => k == p.1).map Prod.snd

/-- Membership of a key in a dictionary. -/
def hasKey (d : PyDict) (k : String) : Bool :=
  d.any fun p => k == p.1

/-- An outgoing HTTP POST request as built by `httpx.AsyncClient.post`. -/
structure HttpRequest where
  url : String
  body : PyDict
  headers : List (String × String)

/-- Outcome of one HTTP request: a transport-level failure (connect error,
timeout, ...) or a response with a status code and parsed JSON object body. -/
inductive NetResult where
  | netError (msg : String)
  | ok (status : Nat) (body : PyDict)

/-- The environment: what the backend answers to each request. -/
abbrev Backend := HttpRequest → NetResult

/-- Response status in the 2xx success range. -/
def is2xx (status : Nat) : Bool :=
  decide (200 ≤ status) && decide (status < 300)

/-- Request outcomes on which `raise_for_status` (or the transport itself)
raises: network errors and non-2xx statuses. -/
def NetResult.fails : NetResult → Bool
  | .netError _ => true
  | .ok status _ => !is2xx status

/-- Result of a Python call as seen by the caller: a returned value or an
uncaught exception propagating out. -/
inductive PyResult (α : Type) where
  | ok (val : α)
  | exn (msg : String)

/-- Python `str.rstrip("/")`: drop all trailing slash characters. -/
def rstripSlash (s : String) : String :=
  String.mk ((s.data.reverse.dropWhile fun c => c = '/').reverse)

/-- The `httpx.codes.FOUND` status-code constant (HTTP 302). -/
def httpx_codes_FOUND : Int := 302

/-- State of a `VoiceShopperActions` instance (src/voice_agent/actions.py). -/
structure VoiceShopperActions where
  convex_url : String
  secret : String

/-- Constructor `VoiceShopperActions.__init__`: stores the backend URL with
trailing slashes stripped, plus the shared secret. -/
def VoiceShopperActions.init (convexUrl secret : String) : VoiceShopperActions :=
  ⟨rstripSlash convexUrl, secret⟩

/-- The POST to `/pipecat/log-conversation` issued by `log_conversation`. -/
def logConversationReq (a : VoiceShopperActions) (session_id speaker text : String)
    (timestamp : Int) : HttpRequest :=
  { url := a.convex_url ++ "/pipecat/log-conversation"
  , body := [("sessionId", .str session_id), ("speaker", .str speaker),
             ("text", .str text), ("timestamp", .num timestamp)]
  , headers := [("X-Pipecat-Secret", a.secret), ("Content-Type", "application/json")] }

/-- The `preferences` dictionary built inside `search_products`: each key is
inserted only when its argument is present (`is not None` for the prices,
truthiness — present and non-empty — for the lists). -/
def buildPreferences (min_price max_price : Option Int)
    (brands categories : Option (List String)) : PyDict :=
  (match min_price with | some v => [("minPrice", JsonVal.num v)] | none => [])
  ++ (match max_price with | some v => [("maxPrice", JsonVal.num v)] | none => [])
  ++ (match brands with
      | some l => if l.isEmpty then [] else [("brands", JsonVal.arr (l.map JsonVal.str))]
      | none => [])
  ++ (match categories with
      | some l => if l.isEmpty then [] else [("categories", JsonVal.arr (l.map JsonVal.str))]
      | none => [])

/-- Python truthiness of an optional list argument: present and non-empty. -/
def listTruthy : Option (List String) → Bool
  | none => false
  | some l => !l.isEmpty

/-- The POST to `/pipecat/trigger-research` issued by `search_products`; the
body sends `preferences` as JSON null when the built dictionary is empty
(Python `preferences if preferences else None`). -/
def triggerResearchReq (a : VoiceShopperActions) (session_id user_id query : String)
    (preferences : PyDict) : HttpRequest :=
  { url := a.convex_url ++ "/pipecat/trigger-research"
  , body := [("query", .str query), ("sessionId", .str session_id), ("userId", .str user_id),
             ("preferences", if preferences.isEmpty then .null else .obj preferences)]
  , headers := [("X-Pipecat-Secret", a.secret), ("Content-Type", "application/json")] }

namespace VoiceShopperActions

/-- The body of the `try` block of `log_conversation`: POST the turn and
`raise_for_status`; yields the exception when the request fails. -/
def log_conversation_attempt (be : Backend) (a : VoiceShopperActions)
    (session_id speaker text : String) (timestamp : Int) : Except String Unit :=
  match be (logConversationReq a session_id speaker text timestamp) with
  | .netError e => .error e
  | .ok status _ => if is2xx status then .ok () else .error ("HTTP status error " ++ toString status)

/-- Method `log_conversation`: performs the POST; the surrounding
`try ... except` swallows every failure (a warning is logged), so the caller
always sees a normal return.  The issued request is the trace. -/
def log_conversation (be : Backend) (a : VoiceShopperActions)
    (session_id speaker text : String) (timestamp : Int) : PyResult Unit × List HttpRequest :=
  ( match log_conversation_attempt be a session_id speaker text timestamp with
    | .ok () => .ok ()
    | .error _ => .ok ()
  , [logConversationReq a session_id speaker text timestamp] )

/-- Python `result.get("resultsCount", 0)` on the parsed response body. -/
def resultsCountOf (body : PyDict) : JsonVal :=
  (PyDict.get body "resultsCount").getD (.num 0)

/-- Python `str()` rendering used when interpolating the results count into the
reply message (only atoms occur in the scenarios modelled here). -/
def renderCount : JsonVal → String
  | .num n => toString n
  | .str s => s
  | .bool b => if b then "True" else "False"
  | .null => "None"
  | _ => "<value>"

/-- Method `search_products`: builds the preferences, POSTs to
`/pipecat/trigger-research`, raises for non-2xx, logs a system turn with the
constant `httpx.codes.FOUND * 1000` timestamp, and returns the success
dictionary; the `except` clause converts every failure inside the `try` block
into a dictionary with `success=False` and a message. -/
def search_products (be : Backend) (a : VoiceShopperActions)
    (session_id user_id query : String) (min_price max_price : Option Int)
    (brands categories : Option (List String)) : PyDict × List HttpRequest :=
  let preferences := buildPreferences min_price max_price brands categories
  let req := triggerResearchReq a session_id user_id query preferences
  match be req with
  | .netError e =>
      ([("success", .bool false),
        ("message", .str ("Sorry, I encountered an error while searching: " ++ e))], [req])
  | .ok status body =>
      if is2xx status then
        let n := resultsCountOf body
        let logged := log_conversation be a session_id "system"
          ("Searched for: " ++ query) (httpx_codes_FOUND * 1000)
        ( [("success", .bool true),
           ("message", .str ("Found " ++ renderCount n ++
             " products matching your criteria. I\x27ll show them to you now.")),
           ("results_count", n)]
        , req :: logged.2 )
      else
        ([("success", .bool false),
          ("message", .str ("Sorry, I encountered an error while searching: " ++
            "HTTP status error " ++ toString status))], [req])

/-- Method `save_item`: performs no backend action request; it only logs a
system turn (failure swallowed inside `log_conversation`) and returns a
success dictionary. -/
def save_item (be : Backend) (a : VoiceShopperActions)
    (session_id user_id product_id product_name : String)
    (description : Option String) (price : Option Int) : PyDict × List HttpRequest :=
  let logged := log_conversation be a session_id "system"
    ("Saved item: " ++ product_name) (httpx_codes_FOUND * 1000)
  ( [("success", .bool true),
     ("message", .str ("I\x27ve saved \x27" ++ product_name ++ "\x27 to your list!"))]
  , logged.2 )

/-- Method `get_user_preferences`: returns the fixed placeholder preferences;
no backend request is made and the result ignores `user_id`. -/
def get_user_preferences (user_id : String) : PyDict × List HttpRequest :=
  ( [("success", .bool true),
     ("preferences", .obj
       [ ("style", .arr [.str "modern", .str "minimalist"])
       , ("budget", .obj [("min", .num 50), ("max", .num 500)])
       , ("brands", .arr [.str "Apple", .str "Dell", .str "Herman Miller"])])]
  , [] )

end VoiceShopperActions

/-- Tool-call argument mapping for `search_products` as supplied by the model;
a field is `none` when the key is absent from the mapping. -/
structure SearchArgs where
  query : Option String := none
  min_price : Option Int := none
  max_price : Option Int := none
  brands : Option (List String) := none
  categories : Option (List String) := none

/-- Tool-call argument mapping for `save_item`. -/
structure SaveArgs where
  product_id : Option String := none
  product_name : Option String := none
  description : Option String := none
  price : Option Int := none

/-- The registered dispatch lambda for `search_products`
(`lambda args: self.actions.search_products(session_id, user_id, **args)`):
Python raises `TypeError` at call binding when a required parameter is missing,
before the method body (and its `try` block) runs. -/
def dispatch_search_products (be : Backend) (a : VoiceShopperActions)
    (session_id user_id : String) (args : SearchArgs) : PyResult (PyDict × List HttpRequest) :=
  match args.query with
  | none => .exn "TypeError: search_products() missing 1 required positional argument: \x27query\x27"
  | some q => .ok (VoiceShopperActions.search_products be a session_id user_id q
      args.min_price args.max_price args.brands args.categories)

/-- The registered dispatch lambda for `save_item`; missing `product_id` or
`product_name` raises `TypeError` at call binding. -/
def dispatch_save_item (be : Backend) (a : VoiceShopperActions)
    (session_id user_id : String) (args : SaveArgs) : PyResult (PyDict × List HttpRequest) :=
  match args.product_id, args.product_name with
  | some pid, some pname =>
      .ok (VoiceShopperActions.save_item be a session_id user_id pid pname
        args.description args.price)
  | _, _ => .exn "TypeError: save_item() missing required positional arguments"

/-- The registered dispatch lambda for `get_user_preferences` (no required
parameters). -/
def dispatch_get_user_preferences (a : VoiceShopperActions) (user_id : String) :
    PyResult (PyDict × List HttpRequest) :=
  .ok (VoiceShopperActions.get_user_preferences user_id)

/-- Environment-derived configuration of the voice-agent process; `none` means
the variable is unset. -/
structure EnvConfig where
  google_api_key : Option String
  cartesia_api_key : Option String
  convex_http_url : Option String
  pipecat_server_secret : Option String

/-- Python truthiness test `not value` for an optional string: unset or empty. -/
def pyFalsyStr : Option String → Bool
  | none => true
  | some s => s.isEmpty

/-- The `required_vars` dictionary of `_validate_config`
(src/voice_agent/agent.py and src/voice_agent/server.py). -/
def requiredVars (c : EnvConfig) : List (String × Option String) :=
  [ ("GOOGLE_API_KEY", c.google_api_key)
  , ("CARTESIA_API_KEY", c.cartesia_api_key)
  , ("CONVEX_HTTP_URL", c.convex_http_url)
  , ("PIPECAT_SERVER_SECRET", c.pipecat_server_secret) ]

/-- The `missing` list computed by `_validate_config`. -/
def missingVars (c : EnvConfig) : List String :=
  ((requiredVars c).filter fun p => pyFalsyStr p.2).map Prod.fst

/-- Outcome of startup validation: `sys.exit(1)` or successful validation. -/
inductive ConfigOutcome where
  | exitedProcess (code : Nat)
  | validated

/-- Method `_validate_config`: exits the process with code 1 when any required
variable is unset or empty, otherwise completes. -/
def validate_config (c : EnvConfig) : ConfigOutcome :=
  if (missingVars c).isEmpty then .validated else .exitedProcess 1

/-- Session-id generation `f"session_..."` from the millisecond clock reading
(src/voice_agent/server.py line 204 and src/voice_agent/agent.py line 184). -/
def genSessionId (now_ms : Int) : String :=
  "session_" ++ toString now_ms

/-- The session id chosen by `websocket_endpoint` in src/voice_agent/server.py:
always freshly generated from the clock. -/
def websocket_endpoint_session_id (now_ms : Int) : String :=
  genSessionId now_ms

/-- Session-id resolution in `handle_session` (src/voice_agent/agent.py): the
`sessionId` query parameter when present and non-empty, otherwise a generated
id. -/
def handle_session_session_id (querySessionId : Option String) (clock_ms : Int) : String :=
  match querySessionId with
  | none => genSessionId clock_ms
  | some s => if s.isEmpty then genSessionId clock_ms else s

/-- A concrete actions instance used in closed scenario theorems. -/
def gw0 : VoiceShopperActions := VoiceShopperActions.init "https://example.convex.site/" "test-secret"

/-- A backend that answers every request with HTTP 200 and a body reporting
three results. -/
def okBackend3 : Backend := fun _ => .ok 200 [("resultsCount", .num 3)]

/-- A backend on which every request fails at the transport level. -/
def errBackend : Backend := fun _ => .netError "timeout connecting to backend"

/-- A backend that answers every request with HTTP 500. -/
def be500 : Backend := fun _ => .ok 500 []

/-- C10: `get_user_preferences` returns the same fixed mapping for every pair
of user ids — success with the constant style/budget/brands preferences — and
issues no backend request, so the result reveals no dependence on `user_id`. -/
theorem C10_preferences_constant (u u2 : String) :
    VoiceShopperActions.get_user_preferences u = VoiceShopperActions.get_user_preferences u2
    ∧ VoiceShopperActions.get_user_preferences u =
      ( [("success", .bool true),
         ("preferences", .obj
           [ ("style", .arr [.str "modern", .str "minimalist"])
           , ("budget", .obj [("min", .num 50), ("max", .num 500)])
           , ("brands", .arr [.str "Apple", .str "Dell", .str "Herman Miller"])])]
      , [] ) :=
  ⟨rfl, rfl⟩

/-- C6 counterexample: at clock reading 1700000000000 ms the generated session
id is exactly the prefix followed by the timestamp digits and nothing else —
there is no random suffix appended to avoid collisions, so two connections
arriving in the same millisecond receive the identical id. -/
theorem C6_counterexample :
    handle_session_session_id none 1700000000000 = "session_1700000000000"
    ∧ websocket_endpoint_session_id 1700000000000 = "session_1700000000000" :=
  ⟨rfl, rfl⟩

/-- C6 amended: when the connection metadata carries no `sessionId` (or an
empty one), the server generates the id `session_` followed by the millisecond
clock reading — deterministic in the clock alone, with no random suffix — and
proceeds with it; a present non-empty `sessionId` is used as given. -/
theorem C6_corrected (t : Int) (s : String) :
    handle_session_session_id none t = "session_" ++ toString t
    ∧ handle_session_session_id (some s) t =
        (if s.isEmpty then "session_" ++ toString t else s)
    ∧ websocket_endpoint_session_id t = "session_" ++ toString t :=
  ⟨rfl, rfl, rfl⟩

/-- C8: the timestamp recorded with the system turns of `search_products` and
`save_item` is the fixed constant `httpx.codes.FOUND * 1000 = 302000`
(the code reads no clock at all), not a wall-clock millisecond time. -/
theorem C8_fixed_timestamp :
    (VoiceShopperActions.search_products okBackend3 gw0 "s1" "u1" "gaming laptop"
        none none none none).2 =
      [ triggerResearchReq gw0 "s1" "u1" "gaming laptop" []
      , logConversationReq gw0 "s1" "system" "Searched for: gaming laptop" 302000 ]
    ∧ (VoiceShopperActions.save_item errBackend gw0 "s1" "u1" "prod_1" "Standing Desk"
        none none).2 =
      [ logConversationReq gw0 "s1" "system" "Saved item: Standing Desk" 302000 ]
    ∧ httpx_codes_FOUND * 1000 = 302000 :=
  ⟨rfl, rfl, rfl⟩

/-- C5 counterexample: with a backend that answers HTTP 500 to every request,
`save_item` still returns `success=True` (the only request it makes is the
conversation-log POST, whose failure is swallowed), not the `success=false`
the claim requires. -/
theorem C5_counterexample :
    PyDict.get (VoiceShopperActions.save_item be500 gw0 "s1" "u1" "prod_1"
      "Standing Desk" none none).1 "success" = some (.bool true)
    ∧ PyDict.get (VoiceShopperActions.save_item be500 gw0 "s1" "u1" "prod_1"
      "Standing Desk" none none).1 "success" ≠ some (.bool false) :=
  ⟨rfl, fun h => Bool.noConfusion (JsonVal.bool.inj (Option.some.inj
    (show some (JsonVal.bool true) = some (JsonVal.bool false) from h)))⟩

/-- C5 amended: `save_item` performs no backend action request — its only
outgoing request is the conversation-log POST, whose failure (for example an
HTTP 500) is swallowed — and for every backend behaviour it returns
`success=true` with a non-empty message and raises no exception, so the
session continues. -/
theorem C5_corrected (be : Backend) (a : VoiceShopperActions)
    (sid uid pid pname : String) (desc : Option String) (price : Option Int) :
    (VoiceShopperActions.save_item be a sid uid pid pname desc price).2 =
      [logConversationReq a sid "system" ("Saved item: " ++ pname) (httpx_codes_FOUND * 1000)]
    ∧ PyDict.get (VoiceShopperActions.save_item be a sid uid pid pname desc price).1
        "success" = some (.bool true)
    ∧ ∃ m, PyDict.get (VoiceShopperActions.save_item be a sid uid pid pname desc price).1
        "message" = some (.str m) ∧ 0 < m.length :=
  ⟨rfl, rfl, "I\x27ve saved \x27" ++ pname ++ "\x27 to your list!", rfl, by
    rw [String.length_append, String.length_append]
    exact Nat.add_pos_left (Nat.add_pos_left (by decide) _) _⟩


/-- C1 counterexample: dispatching `search_products` with an argument mapping
that omits the required `query` parameter (only `max_price=1500` is supplied)
raises a `TypeError` out of the registered dispatch lambda instead of
returning a `success=false` result. -/
theorem C1_counterexample :
    dispatch_search_products okBackend3 gw0 "s1" "u1" { max_price := some 1500 } =
      .exn "TypeError: search_products() missing 1 required positional argument: \x27query\x27"
    ∧ ∀ v, dispatch_search_products okBackend3 gw0 "s1" "u1" { max_price := some 1500 } ≠
        .ok v :=
  ⟨rfl, fun _ h => PyResult.noConfusion
    ((rfl : dispatch_search_products okBackend3 gw0 "s1" "u1" { max_price := some 1500 } =
      .exn "TypeError: search_products() missing 1 required positional argument: \x27query\x27").symm.trans h)⟩

/-- C1 amended: a dispatch whose argument mapping contains all required
parameters never raises (the action result is returned normally, the catch-all
inside the action converting internal failures into `success=false`), but a
dispatch whose mapping omits a required parameter raises a `TypeError` to its
caller at argument binding, before the action body runs. -/
theorem C1_corrected (be : Backend) (a : VoiceShopperActions) (sid uid : String)
    (sargs : SearchArgs) (vargs : SaveArgs) :
    (sargs.query.isSome = true →
      ∃ v, dispatch_search_products be a sid uid sargs = .ok v)
    ∧ (sargs.query = none →
      ∃ m, dispatch_search_products be a sid uid sargs = .exn m)
    ∧ (vargs.product_id.isSome = true → vargs.product_name.isSome = true →
      ∃ v, dispatch_save_item be a sid uid vargs = .ok v)
    ∧ (vargs.product_id = none ∨ vargs.product_name = none →
      ∃ m, dispatch_save_item be a sid uid vargs = .exn m) := by
  refine ⟨?_, ?_, ?_, ?_⟩
  · intro h
    match hq : sargs.query with
    | some q =>
        exact ⟨VoiceShopperActions.search_products be a sid uid q sargs.min_price
          sargs.max_price sargs.brands sargs.categories,
          by unfold dispatch_search_products; rw [hq]⟩
    | none => rw [hq] at h; cases h
  · intro h
    exact ⟨"TypeError: search_products() missing 1 required positional argument: \x27query\x27",
      by unfold dispatch_search_products; rw [h]⟩
  · intro h1 h2
    match hp : vargs.product_id, hn : vargs.product_name with
    | some pid, some pname =>
        exact ⟨VoiceShopperActions.save_item be a sid uid pid pname vargs.description
          vargs.price, by unfold dispatch_save_item; rw [hp, hn]⟩
    | none, _ => rw [hp] at h1; cases h1
    | some _, none => rw [hn] at h2; cases h2
  · intro h
    match hp : vargs.product_id, hn : vargs.product_name with
    | none, none =>
        exact ⟨"TypeError: save_item() missing required positional arguments",
          by unfold dispatch_save_item; rw [hp, hn]⟩
    | none, some _ =>
        exact ⟨"TypeError: save_item() missing required positional arguments",
          by unfold dispatch_save_item; rw [hp, hn]⟩
    | some _, none =>
        exact ⟨"TypeError: save_item() missing required positional arguments",
          by unfold dispatch_save_item; rw [hp, hn]⟩
    | some _, some _ =>
        rcases h with h | h
        · rw [hp] at h; cases h
        · rw [hn] at h; cases h

/-- C1 witness: the amended theorem applied at concrete inputs — a complete
`search_products` mapping dispatches without raising, an empty `save_item`
mapping raises. -/
theorem C1_witness :
    (∃ v, dispatch_search_products okBackend3 gw0 "s1" "u1"
      { query := some "gaming laptop" } = .ok v)
    ∧ (∃ m, dispatch_save_item okBackend3 gw0 "s1" "u1" {} = .exn m) :=
  ⟨(C1_corrected okBackend3 gw0 "s1" "u1" { query := some "gaming laptop" } {}).1 rfl,
   (C1_corrected okBackend3 gw0 "s1" "u1" { query := some "gaming laptop" } {}).2.2.2
     (Or.inl rfl)⟩

/-- C7: startup configuration validation is fatal on any gap — when at least one
required environment variable is unset or empty the process exits with code 1,
and when every required variable is present and non-empty validation completes
without exiting. -/
theorem C7_config_validation (c : EnvConfig)
    (hmiss : ∃ p ∈ requiredVars c, pyFalsyStr p.2 = true)
    (c2 : EnvConfig) (hok : ∀ p ∈ requiredVars c2, pyFalsyStr p.2 = false) :
    validate_config c = .exitedProcess 1 ∧ validate_config c2 = .validated := by
  constructor
  · obtain ⟨p, hp, hfalsy⟩ := hmiss
    have hne : ((requiredVars c).filter fun q => pyFalsyStr q.2) ≠ [] :=
      List.ne_nil_of_mem (List.mem_filter.mpr ⟨hp, hfalsy⟩)
    have hempty : (missingVars c).isEmpty = false := by
      unfold missingVars
      cases hcase : (requiredVars c).filter fun q => pyFalsyStr q.2 with
      | nil => exact absurd hcase hne
      | cons x xs => rfl
    simp [validate_config, hempty]
  · have h1 := hok ("GOOGLE_API_KEY", c2.google_api_key) (by simp [requiredVars])
    have h2 := hok ("CARTESIA_API_KEY", c2.cartesia_api_key) (by simp [requiredVars])
    have h3 := hok ("CONVEX_HTTP_URL", c2.convex_http_url) (by simp [requiredVars])
    have h4 := hok ("PIPECAT_SERVER_SECRET", c2.pipecat_server_secret) (by simp [requiredVars])
    simp at h1 h2 h3 h4
    simp [validate_config, missingVars, requiredVars, h1, h2, h3, h4]

/-- C7 witness: the validation theorem applied at a configuration in which
exactly one required variable (the Cartesia key) is unset (process exits) and
at a fully-populated one (validation completes). -/
theorem C7_witness :
    validate_config ⟨some "gk", none, some "https://x.convex.site", some "sec"⟩ =
      .exitedProcess 1
    ∧ validate_config ⟨some "gk", some "ck", some "https://x.convex.site", some "sec"⟩ =
        .validated :=
  C7_config_validation ⟨some "gk", none, some "https://x.convex.site", some "sec"⟩
    (by decide)
    ⟨some "gk", some "ck", some "https://x.convex.site", some "sec"⟩ (by decide)

/-- C2: in a session with `sessionId=s1`, `userId=u1`, dispatching
`search_products` with `query="gaming laptop"` and `max_price=1500` sends the
POST to `<convex_url>/pipecat/trigger-research` whose body carries the query,
session id, user id and `preferences` containing exactly `maxPrice=1500`; when
the backend answers 200 with `resultsCount=3`, the dispatch returns
`success=true` with `results_count=3` and a system conversation turn
`Searched for: gaming laptop` is recorded. -/
theorem C2_search_scenario (be : Backend) (a : VoiceShopperActions)
    (h : be (triggerResearchReq a "s1" "u1" "gaming laptop"
        (buildPreferences none (some 1500) none none)) =
      .ok 200 [("resultsCount", .num 3)]) :
    ∃ d tr, dispatch_search_products be a "s1" "u1"
        { query := some "gaming laptop", max_price := some 1500 } = .ok (d, tr)
      ∧ PyDict.get d "success" = some (.bool true)
      ∧ PyDict.get d "results_count" = some (.num 3)
      ∧ tr.head? = some (triggerResearchReq a "s1" "u1" "gaming laptop"
          [("maxPrice", .num 1500)])
      ∧ (triggerResearchReq a "s1" "u1" "gaming laptop" [("maxPrice", .num 1500)]).url =
          a.convex_url ++ "/pipecat/trigger-research"
      ∧ (triggerResearchReq a "s1" "u1" "gaming laptop" [("maxPrice", .num 1500)]).body =
          [("query", .str "gaming laptop"), ("sessionId", .str "s1"), ("userId", .str "u1"),
           ("preferences", .obj [("maxPrice", .num 1500)])]
      ∧ logConversationReq a "s1" "system" "Searched for: gaming laptop"
          (httpx_codes_FOUND * 1000) ∈ tr := by
  refine ⟨[("success", .bool true),
      ("message", .str "Found 3 products matching your criteria. I\x27ll show them to you now."),
      ("results_count", .num 3)],
    [triggerResearchReq a "s1" "u1" "gaming laptop" [("maxPrice", .num 1500)],
     logConversationReq a "s1" "system" "Searched for: gaming laptop"
       (httpx_codes_FOUND * 1000)],
    ?_, rfl, rfl, rfl, rfl, rfl, ?_⟩
  · unfold dispatch_search_products VoiceShopperActions.search_products
    dsimp only
    rw [h]
    rfl
  · exact List.Mem.tail _ (List.Mem.head _)

/-- C3: a failing conversation-log request is swallowed — `log_conversation`
returns normally — and the result dictionary of `search_products` depends only
on the response to the trigger-research request (so a logging failure cannot
alter it); the result of `save_item` is independent of the backend
entirely. -/
theorem C3_logging_isolated (be be2 : Backend) (a : VoiceShopperActions)
    (sid sp tx uid q pid pname : String) (ts : Int) (e : String)
    (mp Mp : Option Int) (br ct : Option (List String))
    (hfail : VoiceShopperActions.log_conversation_attempt be a sid sp tx ts = .error e)
    (hagree : be (triggerResearchReq a sid uid q (buildPreferences mp Mp br ct)) =
      be2 (triggerResearchReq a sid uid q (buildPreferences mp Mp br ct))) :
    (VoiceShopperActions.log_conversation be a sid sp tx ts).1 = .ok ()
    ∧ (VoiceShopperActions.search_products be a sid uid q mp Mp br ct).1 =
        (VoiceShopperActions.search_products be2 a sid uid q mp Mp br ct).1
    ∧ (VoiceShopperActions.save_item be a sid uid pid pname none none).1 =
        (VoiceShopperActions.save_item be2 a sid uid pid pname none none).1 := by
  refine ⟨?_, ?_, rfl⟩
  · unfold VoiceShopperActions.log_conversation
    rw [hfail]
  · unfold VoiceShopperActions.search_products
    dsimp only
    rw [hagree]
    cases be2 (triggerResearchReq a sid uid q (buildPreferences mp Mp br ct)) with
    | netError e2 => rfl
    | ok status body =>
        dsimp only
        split
        · rfl
        · rfl

/-- C3 witness: the theorem applied with a backend on which every request
(including the conversation log) times out. -/
theorem C3_witness :
    (VoiceShopperActions.log_conversation errBackend gw0 "s1" "system" "hello" 302000).1 =
      .ok ()
    ∧ (VoiceShopperActions.search_products errBackend gw0 "s1" "u1" "laptop"
        none none none none).1 =
      (VoiceShopperActions.search_products errBackend gw0 "s1" "u1" "laptop"
        none none none none).1
    ∧ (VoiceShopperActions.save_item errBackend gw0 "s1" "u1" "p1" "Desk" none none).1 =
      (VoiceShopperActions.save_item errBackend gw0 "s1" "u1" "p1" "Desk" none none).1 :=
  C3_logging_isolated errBackend errBackend gw0 "s1" "system" "hello" "u1" "laptop"
    "p1" "Desk" 302000 "timeout connecting to backend" none none none none rfl rfl

/-- C4: when the trigger-research request fails — network error, timeout, or a
non-2xx response — `search_products` catches the failure and returns a
dictionary with `success=false` and a non-empty message; no exception escapes
the gateway (the function returns a plain value on every backend
behaviour). -/
theorem C4_gateway_failure_isolated (be : Backend) (a : VoiceShopperActions)
    (sid uid q : String) (mp Mp : Option Int) (br ct : Option (List String))
    (hfail : (be (triggerResearchReq a sid uid q (buildPreferences mp Mp br ct))).fails =
      true) :
    PyDict.get (VoiceShopperActions.search_products be a sid uid q mp Mp br ct).1
      "success" = some (.bool false)
    ∧ ∃ m, PyDict.get (VoiceShopperActions.search_products be a sid uid q mp Mp br ct).1
        "message" = some (.str m) ∧ 0 < m.length := by
  unfold VoiceShopperActions.search_products
  dsimp only
  cases h2 : be (triggerResearchReq a sid uid q (buildPreferences mp Mp br ct)) with
  | netError e =>
      refine ⟨rfl, "Sorry, I encountered an error while searching: " ++ e, rfl, ?_⟩
      rw [String.length_append]
      exact Nat.add_pos_left (by decide) _
  | ok status body =>
      rw [h2] at hfail
      simp only [NetResult.fails, Bool.not_eq_true'] at hfail
      dsimp only
      rw [hfail]
      refine ⟨rfl, "Sorry, I encountered an error while searching: " ++
        ("HTTP status error " ++ toString status), rfl, ?_⟩
      rw [String.length_append]
      exact Nat.add_pos_left (by decide) _

/-- C4 witness: the theorem applied with a backend on which the request times
out. -/
theorem C4_witness :
    PyDict.get (VoiceShopperActions.search_products errBackend gw0 "s1" "u1" "laptop"
      none none none none).1 "success" = some (.bool false)
    ∧ ∃ m, PyDict.get (VoiceShopperActions.search_products errBackend gw0 "s1" "u1"
        "laptop" none none none none).1 "message" = some (.str m) ∧ 0 < m.length :=
  C4_gateway_failure_isolated errBackend gw0 "s1" "u1" "laptop" none none none none rfl

/-- C9: the trigger-research request sent by `search_products` carries a
`preferences` object holding exactly the keys whose optional argument was
provided (and, for the list filters, non-empty); when no filter survives, the
body sends `preferences` as JSON null instead of an empty object. -/
theorem C9_preferences_exact (be : Backend) (a : VoiceShopperActions)
    (sid uid q : String) (mp Mp : Option Int) (br ct : Option (List String))
    (k : String) :
    (VoiceShopperActions.search_products be a sid uid q mp Mp br ct).2.head? =
      some (triggerResearchReq a sid uid q (buildPreferences mp Mp br ct))
    ∧ hasKey (buildPreferences mp Mp br ct) k =
        ((k == "minPrice") && mp.isSome ||
          ((k == "maxPrice") && Mp.isSome ||
            ((k == "brands") && listTruthy br || (k == "categories") && listTruthy ct)))
    ∧ (buildPreferences mp Mp br ct).isEmpty =
        (mp.isNone && Mp.isNone && !listTruthy br && !listTruthy ct)
    ∧ PyDict.get (triggerResearchReq a sid uid q (buildPreferences mp Mp br ct)).body
        "preferences" =
        some (if (buildPreferences mp Mp br ct).isEmpty then .null
              else .obj (buildPreferences mp Mp br ct)) := by
  refine ⟨?_, ?_, ?_, rfl⟩
  · unfold VoiceShopperActions.search_products
    dsimp only
    cases be (triggerResearchReq a sid uid q (buildPreferences mp Mp br ct)) with
    | netError e => rfl
    | ok status body =>
        dsimp only
        split
        · rfl
        · rfl
  · rcases mp with _ | v1 <;> rcases Mp with _ | v2 <;>
      rcases br with _ | (_ | ⟨b, bs⟩) <;> rcases ct with _ | (_ | ⟨c, cs⟩) <;>
      simp [buildPreferences, hasKey, listTruthy]
  · rcases mp with _ | v1 <;> rcases Mp with _ | v2 <;>
      rcases br with _ | (_ | ⟨b, bs⟩) <;> rcases ct with _ | (_ | ⟨c, cs⟩) <;>
      simp [buildPreferences, listTruthy]

/-- C2 witness: the scenario theorem applied with a concrete backend that
answers 200 and `resultsCount=3`. -/
theorem C2_witness :
    ∃ d tr, dispatch_search_products okBackend3 gw0 "s1" "u1"
        { query := some "gaming laptop", max_price := some 1500 } = .ok (d, tr)
      ∧ PyDict.get d "success" = some (.bool true)
      ∧ PyDict.get d "results_count" = some (.num 3)
      ∧ tr.head? = some (triggerResearchReq gw0 "s1" "u1" "gaming laptop"
          [("maxPrice", .num 1500)])
      ∧ (triggerResearchReq gw0 "s1" "u1" "gaming laptop" [("maxPrice", .num 1500)]).url =
          gw0.convex_url ++ "/pipecat/trigger-research"
      ∧ (triggerResearchReq gw0 "s1" "u1" "gaming laptop" [("maxPrice", .num 1500)]).body =
          [("query", .str "gaming laptop"), ("sessionId", .str "s1"), ("userId", .str "u1"),
           ("preferences", .obj [("maxPrice", .num 1500)])]
      ∧ logConversationReq gw0 "s1" "system" "Searched for: gaming laptop"
          (httpx_codes_FOUND * 1000) ∈ tr :=
  C2_search_scenario okBackend3 gw0 rfl
